import Mathlib

/-!
Shallow embedding of the task-bot core from `bot.py`: the per-chat task
store `tasks_by_chat` and the seven command handlers.  Handlers are modelled
as total functions into `Except`, where the `Except.error` constructor marks
the places where the Python code raises (`int(...)` and list indexing);
the theorems below settle which of those places are reachable: the
`isdigit()` guard does not protect `int(...)` from digit characters that
are not decimal digits, such as superscript two.
-/

namespace TaskBot

/-- A task record: the text, the id of the message that created it, and the
display name of the user who added it.  Mirrors the tuple
`(task_text, msg_id, added_by)` stored in `tasks_by_chat`. -/
structure Task where
  text : String
  sourceMessageId : Nat
  addedBy : String
deriving DecidableEq, Repr

/-- The global store `tasks_by_chat`: a mapping from chat id to the ordered task
list of that chat.  Unknown chats map to the empty list, mirroring
`tasks_by_chat.setdefault(chat_id, [])`. -/
abbrev Store := Int → List Task

/-- Model of `get_tasks_for(chat_id)` from `bot.py`: look up the list of a
chat, defaulting to the empty list for a chat never seen before. -/
def get_tasks_for (store : Store) (chat_id : Int) : List Task := store chat_id

/-- Write back the list of one chat into the store (the effect of mutating the list
object held in the dict). -/
def setChat (store : Store) (chat_id : Int) (l : List Task) : Store :=
  fun ch => if ch = chat_id then l else store ch

/-- The initial store: no chat has any tasks. -/
def storeEmpty : Store := fun _ => []

/-- A decoded command invocation as the handlers see it: the chat it came
from, the raw argument text after the command token, the id of the message
carrying the command, and the sender name fields
(`user.username`, `user.full_name`, `user.first_name`; empty string models
a missing/falsy value, as in Python truthiness). -/
structure Cmd where
  chatId : Int
  argString : String
  sourceMessageId : Nat
  username : String
  fullName : String
  firstName : String
deriving DecidableEq, Repr

/-- What a handler sends back: the response text and the optional
`reply_to_message_id` used by `goto`. -/
structure Response where
  text : String
  replyToMessageId : Option Nat
deriving DecidableEq, Repr

/-- Accumulator-style tokenizer behind `pyArgs`: splits a character list on
runs of whitespace, discarding empty pieces, exactly like the Python
`str.split()` with no separator argument. -/
def splitWsAux : List Char → List Char → List (List Char)
  | [], acc => if acc = [] then [] else [acc.reverse]
  | ch :: cs, acc =>
    if ch.isWhitespace then
      if acc = [] then splitWsAux cs [] else acc.reverse :: splitWsAux cs []
    else splitWsAux cs (ch :: acc)

/-- Model of `context.args`: the whitespace-separated tokens of the argument string
(python-telegram-bot computes them as `message.text.split()[1:]`). -/
def pyArgs (s : String) : List String :=
  (splitWsAux s.data []).map String.mk

/-- Model of Python `str.strip()`: remove leading and trailing whitespace. -/
def pyStrip (s : String) : String :=
  String.mk (List.rdropWhile Char.isWhitespace (s.data.dropWhile Char.isWhitespace))

/-- Decimal-digit strings: non-empty and all ASCII decimal digits — the
strings on which `int(...)` succeeds in the model.  This is narrower than
the `str.isdigit()` guard `pyStrIsDigit`; the gap between the two is
exactly where `int(...)` raises. -/
def pyIsDigit (s : String) : Bool :=
  !s.data.isEmpty && s.data.all Char.isDigit

/-- Digit characters that are not decimal digits (Unicode
`Numeric_Type=Digit`): the superscript and subscript digits such as `'²'`.
Python `str.isdigit()` accepts them, yet `int()` rejects them with
`ValueError`.  (Python knows further characters of this kind, and further
non-ASCII decimal digits; the model keeps the superscript/subscript ones,
which exercise every behaviour the handlers distinguish.) -/
def pyCharDigitOnly (c : Char) : Bool :=
  c = '¹' || c = '²' || c = '³' || c = '⁰' ||
  ('⁴' ≤ c && c ≤ '⁹') || ('₀' ≤ c && c ≤ '₉')

/-- Model of Python `str.isdigit()`: non-empty and every character a digit —
a decimal digit or a digit-only character such as `'²'`.  This is the guard
`goto`/`done` test before calling `int(...)`; it is strictly wider than
what `int(...)` accepts. -/
def pyStrIsDigit (s : String) : Bool :=
  !s.data.isEmpty && s.data.all (fun c => c.isDigit || pyCharDigitOnly c)

/-- Value of a decimal digit string, as `int(...)` computes it. -/
def digitsToNat (s : String) : Nat :=
  s.data.foldl (fun acc ch => acc * 10 + (ch.toNat - 48)) 0

/-- Model of `int(s)` as a fallible operation: on a decimal-digit string it
returns the value, otherwise it raises `ValueError`.  The handlers call it
under the wider `str.isdigit()` guard `pyStrIsDigit`, so the raising branch
is reachable — see the C1 theorem. -/
def pyInt (s : String) : Except String Nat :=
  if pyIsDigit s then Except.ok (digitsToNat s) else Except.error "ValueError"

/-- The `added_by` resolution in `add`:
`f"@{user.username}" if user.username else (user.full_name or user.first_name or "Someone")`. -/
def added_by_of (c : Cmd) : String :=
  if c.username ≠ "" then "@" ++ c.username
  else if c.fullName ≠ "" then c.fullName
  else if c.firstName ≠ "" then c.firstName
  else "Someone"

/-- Computation `task_text = " ".join(context.args).strip()` from `add`. -/
def task_text (argString : String) : String :=
  pyStrip (String.intercalate " " (pyArgs argString))

/-- Handler for `/start`: fixed welcome message, no store access. -/
def start (store : Store) (_c : Cmd) : Except String (Store × Response) :=
  Except.ok (store,
    ⟨"👋 Welcome to the Task Bot!\n" ++
     "Each group or chat has its own independent task list.\n\n" ++
     "Use /add <task> to add a task.\n" ++
     "Use /list to view tasks.\n" ++
     "Use /goto <number> to jump (reply) to the original task message.\n" ++
     "Use /done <number> to mark a task as completed and remove it.\n" ++
     "Use /clear to clear all tasks in this chat.\n" ++
     "Use /help to view all commands.", none⟩)

/-- Handler for `/help`: fixed command reference, no store access. -/
def help_cmd (store : Store) (_c : Cmd) : Except String (Store × Response) :=
  Except.ok (store,
    ⟨"📋 *Task Bot Commands*\n\n" ++
     "🆕 `/add <task>` — Add a new task\n" ++
     "📄 `/list` — Show all current tasks\n" ++
     "🔎 `/goto <number>` — Reply to the original `/add` message for that task\n" ++
     "✅ `/done <number>` — Mark a task as completed and remove it\n" ++
     "🧹 `/clear` — Clear all tasks in *this chat*\n" ++
     "ℹ️ `/help` — Show this help message\n", none⟩)

/-- Handler for `/add`. -/
def add (store : Store) (c : Cmd) : Except String (Store × Response) :=
  let tt := task_text c.argString
  if tt = "" then
    Except.ok (store, ⟨"Please enter a task after the command, e.g. /add Buy milk", none⟩)
  else
    let msg_id := c.sourceMessageId
    let added_by := added_by_of c
    let tasks := get_tasks_for store c.chatId
    Except.ok (setChat store c.chatId (tasks ++ [⟨tt, msg_id, added_by⟩]),
      ⟨"✅ Task added: " ++ tt ++ " (by " ++ added_by ++ ")", none⟩)

/-- Handler for `/list`. -/
def list_tasks (store : Store) (c : Cmd) : Except String (Store × Response) :=
  let tasks := get_tasks_for store c.chatId
  if tasks = [] then
    Except.ok (store, ⟨"📭 No tasks yet.", none⟩)
  else
    let lines := tasks.enum.map
      (fun it => toString (it.1 + 1) ++ ". " ++ it.2.text ++ " (by " ++ it.2.addedBy ++ ")")
    Except.ok (store, ⟨"📝 Current tasks in this chat:\n" ++ String.intercalate "\n" lines, none⟩)

/-- Handler for `/goto`.  The `Except.error` branches are the spots where the
Python code raises: `int` on a token that passes `isdigit()` but contains a
non-decimal digit character — reachable, see the C1 theorem — and list
indexing, which the bounds check does make unreachable. -/
def goto_task (store : Store) (c : Cmd) : Except String (Store × Response) :=
  let tasks := get_tasks_for store c.chatId
  if tasks = [] then
    Except.ok (store, ⟨"📭 No tasks yet.", none⟩)
  else
    match pyArgs c.argString with
    | [] => Except.ok (store, ⟨"Please enter a task number, e.g. /goto 1", none⟩)
    | a0 :: _ =>
      if pyStrIsDigit a0 = false then
        Except.ok (store, ⟨"Please enter a task number, e.g. /goto 1", none⟩)
      else
        match pyInt a0 with
        | Except.error e => Except.error e
        | Except.ok n =>
          let index : Int := (n : Int) - 1
          if index < 0 ∨ (tasks.length : Int) ≤ index then
            Except.ok (store, ⟨"❌ Invalid number. Use /list to check the task index.", none⟩)
          else
            match tasks[index.toNat]? with
            | none => Except.error "IndexError"
            | some t =>
              Except.ok (store,
                ⟨"📎 Original task (by " ++ t.addedBy ++ ") 👇", some t.sourceMessageId⟩)

/-- Handler for `/done`.  Here `tasks.pop(index)` is modelled by reading the element
and writing back `eraseIdx`. -/
def done_task (store : Store) (c : Cmd) : Except String (Store × Response) :=
  let tasks := get_tasks_for store c.chatId
  if tasks = [] then
    Except.ok (store, ⟨"There are no tasks to complete. Add one with /add.", none⟩)
  else
    match pyArgs c.argString with
    | [] => Except.ok (store, ⟨"Please provide a valid number, e.g. /done 1", none⟩)
    | a0 :: _ =>
      if pyStrIsDigit a0 = false then
        Except.ok (store, ⟨"Please provide a valid number, e.g. /done 1", none⟩)
      else
        match pyInt a0 with
        | Except.error e => Except.error e
        | Except.ok n =>
          let index : Int := (n : Int) - 1
          if index < 0 ∨ (tasks.length : Int) ≤ index then
            Except.ok (store, ⟨"That task number doesn’t exist. Use /list to check.", none⟩)
          else
            match tasks[index.toNat]? with
            | none => Except.error "IndexError"
            | some t =>
              Except.ok (setChat store c.chatId (tasks.eraseIdx index.toNat),
                ⟨"✅ Completed and removed: " ++ t.text ++ " (added by " ++ t.addedBy ++ ")",
                 none⟩)

/-- Handler for `/clear`: the assignment `tasks_by_chat[chat_id] = []`. -/
def clear_tasks (store : Store) (c : Cmd) : Except String (Store × Response) :=
  Except.ok (setChat store c.chatId [],
    ⟨"🧹 All tasks in this chat have been cleared.", none⟩)

/-- The seven command names routed to this core. -/
inductive CommandName
  | start | help | add | list | goto | done | clear
deriving DecidableEq, Repr

/-- The dispatch table built by the `app.add_handler(CommandHandler(...))`
calls. -/
def handle : CommandName → Store → Cmd → Except String (Store × Response)
  | CommandName.start, s, c => start s c
  | CommandName.help, s, c => help_cmd s c
  | CommandName.add, s, c => add s c
  | CommandName.list, s, c => list_tasks s c
  | CommandName.goto, s, c => goto_task s c
  | CommandName.done, s, c => done_task s c
  | CommandName.clear, s, c => clear_tasks s c

end TaskBot

namespace TaskBot

/-! ## The digit guard -/

/-- Every decimal-digit string passes the `isdigit()` guard. -/
theorem pyStrIsDigit_of_pyIsDigit (s : String) (h : pyIsDigit s = true) :
    pyStrIsDigit s = true := by
  rw [pyIsDigit, Bool.and_eq_true, List.all_eq_true] at h
  rw [pyStrIsDigit, Bool.and_eq_true, List.all_eq_true]
  refine ⟨h.1, fun c hc => ?_⟩
  have hcd := h.2 c hc
  simp only [hcd, Bool.true_or]

/-- C7: `clear` always succeeds, the list of the cleared chat is empty afterwards,
and clearing a second time returns the very same store and response
(idempotence), for any prior state. -/
theorem C7_clear_idempotent (store : Store) (c : Cmd) :
    ∃ s1 r, clear_tasks store c = Except.ok (s1, r) ∧ s1 c.chatId = [] ∧
      clear_tasks s1 c = Except.ok (s1, r) := by
  refine ⟨setChat store c.chatId [], _, rfl, if_pos rfl, ?_⟩
  have h : setChat (setChat store c.chatId []) c.chatId [] = setChat store c.chatId [] := by
    funext ch
    by_cases hch : ch = c.chatId
    · simp [setChat, hch]
    · simp [setChat, hch]
  rw [clear_tasks, h]

end TaskBot

namespace TaskBot

/-! ## The `add` command and its argument normalisation -/

/-- Texts of the tasks stored for a chat in the result of a handler call
(empty when the handler errored). -/
def storedTexts (r : Except String (Store × Response)) (chatId : Int) : List String :=
  match r with
  | Except.ok out => (out.1 chatId).map Task.text
  | Except.error _ => []

/-- An `add` invocation whose argument has an internal double space. -/
def cmdC2 : Cmd := ⟨0, "a  b", 7, "alice", "", ""⟩

/-- C2 fails as stated: with `argString = "a  b"` (whose trimmed form
`"a  b"` is non-empty), `add` stores the text `"a b"` — the internal run of
whitespace is collapsed by `" ".join(context.args)` — which differs from the
argument with only leading/trailing whitespace removed. -/
theorem C2_counterexample :
    pyStrip "a  b" = "a  b" ∧
    storedTexts (add storeEmpty cmdC2) 0 = ["a b"] ∧
    ("a b" : String) ≠ "a  b" := by
  exact ⟨by decide, rfl, by decide⟩

/-- C2 (amended): for every argument string whose normalised text — the
whitespace-separated tokens joined by single spaces and stripped, i.e.
leading/trailing whitespace removed and each internal whitespace run
collapsed to one space — is non-empty, `add` appends exactly one task
carrying that normalised text, the source message id and the resolved
author, and the confirmation response echoes that text. -/
theorem C2_add_appends (store : Store) (c : Cmd) (h : task_text c.argString ≠ "") :
    add store c = Except.ok
      (setChat store c.chatId
        (store c.chatId ++ [⟨task_text c.argString, c.sourceMessageId, added_by_of c⟩]),
       ⟨"✅ Task added: " ++ task_text c.argString ++ " (by " ++ added_by_of c ++ ")",
        none⟩) := by
  simp only [add, get_tasks_for]
  rw [if_neg h]

/-- Witness for C2: a concrete `add` with argument `" Buy  milk "` stores
the task `"Buy milk"` for chat 3 and echoes it. -/
theorem C2_witness :
    add storeEmpty (⟨3, " Buy  milk ", 11, "", "Ann Lee", "Ann"⟩ : Cmd) = Except.ok
      (setChat storeEmpty 3 [⟨"Buy milk", 11, "Ann Lee"⟩],
       ⟨"✅ Task added: Buy milk (by Ann Lee)", none⟩) := by
  have h := C2_add_appends storeEmpty (⟨3, " Buy  milk ", 11, "", "Ann Lee", "Ann"⟩ : Cmd)
    (by decide)
  exact h.trans (by rfl)

/-! ## Empty-list precedence in `goto` and `done` -/

/-- C9: on a chat whose task list is empty, `goto` and `done` return their
no-tasks responses for every argument string — missing, non-numeric, or
numeric alike — so the empty-list check takes priority over argument
validation and the invalid-number responses can only arise for a chat with
at least one task. -/
theorem C9_empty_list_priority (store : Store) (c : Cmd) (h : store c.chatId = []) :
    goto_task store c = Except.ok (store, ⟨"📭 No tasks yet.", none⟩) ∧
    done_task store c =
      Except.ok (store, ⟨"There are no tasks to complete. Add one with /add.", none⟩) := by
  constructor
  · simp only [goto_task, get_tasks_for]
    rw [if_pos h]
  · simp only [done_task, get_tasks_for]
    rw [if_pos h]

/-- Witness for C9: on a fresh chat, `goto abc` and `done abc` (a
non-numeric argument) both answer with the no-tasks responses. -/
theorem C9_witness :
    goto_task storeEmpty (⟨4, "abc", 2, "bob", "", ""⟩ : Cmd) =
      Except.ok (storeEmpty, ⟨"📭 No tasks yet.", none⟩) ∧
    done_task storeEmpty (⟨4, "abc", 2, "bob", "", ""⟩ : Cmd) =
      Except.ok (storeEmpty, ⟨"There are no tasks to complete. Add one with /add.", none⟩) :=
  C9_empty_list_priority storeEmpty (⟨4, "abc", 2, "bob", "", ""⟩ : Cmd) rfl

end TaskBot

namespace TaskBot

/-! ## Position-indexed removal (`done`) and read-only lookup (`goto`) -/

/-- C3: on a chat with at least one task, `done` at a parsed position `p`
within `[1, len]` removes and reports exactly the task that was at position
`p`; the remaining list is the old one with index `p-1` erased — length
`len-1`, earlier elements untouched, later elements shifted down by one —
so position `p` afterwards holds what was at position `p+1`. -/
theorem C3_done_removes (store : Store) (c : Cmd) (a : String) (tl : List String) (p : Nat)
    (ha : pyArgs c.argString = a :: tl) (hd : pyIsDigit a = true) (hv : digitsToNat a = p)
    (hp1 : 1 ≤ p) (hp2 : p ≤ (store c.chatId).length) :
    ∃ t, (store c.chatId)[p-1]? = some t ∧
      done_task store c = Except.ok
        (setChat store c.chatId ((store c.chatId).eraseIdx (p-1)),
         ⟨"✅ Completed and removed: " ++ t.text ++ " (added by " ++ t.addedBy ++ ")",
          none⟩) ∧
      ((store c.chatId).eraseIdx (p-1)).length = (store c.chatId).length - 1 ∧
      (∀ j, j < p-1 → ((store c.chatId).eraseIdx (p-1))[j]? = (store c.chatId)[j]?) ∧
      (∀ j, p-1 ≤ j → ((store c.chatId).eraseIdx (p-1))[j]? = (store c.chatId)[j+1]?) := by
  simp only [done_task, get_tasks_for]
  split
  · rename_i h0
    exfalso
    rw [h0, List.length_nil] at hp2
    omega
  · split
    · rename_i hnil
      rw [ha] at hnil
      exact List.noConfusion hnil
    · rename_i a0 tl0 hargs
      rw [ha] at hargs
      injection hargs with h1 h2
      subst h1
      split
      · rename_i hfalse
        rw [pyStrIsDigit_of_pyIsDigit a hd] at hfalse
        exact Bool.noConfusion hfalse
      · split
        · rename_i e herr
          exfalso
          rw [pyInt, if_pos hd] at herr
          exact Except.noConfusion herr
        · rename_i n hok
          rw [pyInt, if_pos hd] at hok
          injection hok with hn
          rw [hn] at hv
          subst hv
          split
          · rename_i htrue
            exfalso
            omega
          · rename_i hfalse2
            cases hget : (store c.chatId)[(((n : Int)) - 1).toNat]? with
            | none =>
              exfalso
              rw [List.getElem?_eq_none_iff] at hget
              omega
            | some t =>
              have hidx : (((n : Int)) - 1).toNat = n - 1 := by omega
              refine ⟨t, ?_, ?_, ?_, ?_, ?_⟩
              · rw [show n - 1 = (((n : Int)) - 1).toNat from hidx.symm]
                exact hget
              · rw [hidx]
              · exact List.length_eraseIdx_of_lt (by omega)
              · intro j hj
                exact List.getElem?_eraseIdx_of_lt _ _ _ hj
              · intro j hj
                exact List.getElem?_eraseIdx_of_ge _ _ _ hj

/-- C4: `done` at a parsed position outside `[1, len]` — including any
position on an empty list — answers with the no-tasks response (empty list)
or the out-of-range response, and returns the store unchanged, so the list
of no chat is mutated. -/
theorem C4_done_out_of_range (store : Store) (c : Cmd) (a : String) (tl : List String) (p : Nat)
    (ha : pyArgs c.argString = a :: tl) (hd : pyIsDigit a = true) (hv : digitsToNat a = p)
    (hp : p < 1 ∨ (store c.chatId).length < p) :
    done_task store c = Except.ok (store,
      if store c.chatId = [] then
        ⟨"There are no tasks to complete. Add one with /add.", none⟩
      else
        ⟨"That task number doesn’t exist. Use /list to check.", none⟩) := by
  simp only [done_task, get_tasks_for]
  split
  · rfl
  · rename_i h0
    split
    · rename_i hnil
      rw [ha] at hnil
      exact List.noConfusion hnil
    · rename_i a0 tl0 hargs
      rw [ha] at hargs
      injection hargs with h1 h2
      subst h1
      split
      · rename_i hfalse
        rw [pyStrIsDigit_of_pyIsDigit a hd] at hfalse
        exact Bool.noConfusion hfalse
      · split
        · rename_i e herr
          exfalso
          rw [pyInt, if_pos hd] at herr
          exact Except.noConfusion herr
        · rename_i n hok
          rw [pyInt, if_pos hd] at hok
          injection hok with hn
          rw [hn] at hv
          subst hv
          split
          · rfl
          · rename_i hfalse2
            exfalso
            omega

/-- C8: on a chat with at least one task, `goto` at a parsed position `p`
within `[1, len]` answers with the pointer message whose reply target is the
`sourceMessageId` of the task at position `p`, and returns the store itself
unchanged — the list of no chat is modified. -/
theorem C8_goto_readonly (store : Store) (c : Cmd) (a : String) (tl : List String) (p : Nat)
    (ha : pyArgs c.argString = a :: tl) (hd : pyIsDigit a = true) (hv : digitsToNat a = p)
    (hp1 : 1 ≤ p) (hp2 : p ≤ (store c.chatId).length) :
    ∃ t, (store c.chatId)[p-1]? = some t ∧
      goto_task store c = Except.ok
        (store, ⟨"📎 Original task (by " ++ t.addedBy ++ ") 👇", some t.sourceMessageId⟩) := by
  simp only [goto_task, get_tasks_for]
  split
  · rename_i h0
    exfalso
    rw [h0, List.length_nil] at hp2
    omega
  · split
    · rename_i hnil
      rw [ha] at hnil
      exact List.noConfusion hnil
    · rename_i a0 tl0 hargs
      rw [ha] at hargs
      injection hargs with h1 h2
      subst h1
      split
      · rename_i hfalse
        rw [pyStrIsDigit_of_pyIsDigit a hd] at hfalse
        exact Bool.noConfusion hfalse
      · split
        · rename_i e herr
          exfalso
          rw [pyInt, if_pos hd] at herr
          exact Except.noConfusion herr
        · rename_i n hok
          rw [pyInt, if_pos hd] at hok
          injection hok with hn
          rw [hn] at hv
          subst hv
          split
          · rename_i htrue
            exfalso
            omega
          · rename_i hfalse2
            cases hget : (store c.chatId)[(((n : Int)) - 1).toNat]? with
            | none =>
              exfalso
              rw [List.getElem?_eq_none_iff] at hget
              omega
            | some t =>
              refine ⟨t, ?_, rfl⟩
              rw [show n - 1 = (((n : Int)) - 1).toNat by omega]
              exact hget

/-! ## Concrete witnesses for the positional commands -/

def taskA : Task := ⟨"A", 10, "@ann"⟩

def taskB : Task := ⟨"B", 20, "@bob"⟩

def taskC : Task := ⟨"C", 30, "@cat"⟩

/-- A store whose chat 5 holds three tasks. -/
def storeC3 : Store := setChat storeEmpty 5 [taskA, taskB, taskC]

/-- Witness for C3: `done 2` on `[A, B, C]` removes `B` and leaves `[A, C]`. -/
theorem C3_witness :
    done_task storeC3 (⟨5, "2", 40, "bob", "", ""⟩ : Cmd) = Except.ok
      (setChat storeC3 5 [taskA, taskC],
       ⟨"✅ Completed and removed: B (added by @bob)", none⟩) := by
  obtain ⟨t, ht, heq, -, -, -⟩ := C3_done_removes storeC3 (⟨5, "2", 40, "bob", "", ""⟩ : Cmd)
    "2" [] 2 (by decide) (by decide) (by decide) (by decide) (by decide)
  have hts : taskB = t :=
    Option.some.inj ((by rfl : (storeC3 5)[2-1]? = some taskB).symm.trans ht)
  subst hts
  exact heq.trans (by rfl)

/-- Witness for C4: `done 4` on the three-task chat leaves the store
untouched and answers with the out-of-range response. -/
theorem C4_witness :
    done_task storeC3 (⟨5, "4", 42, "bob", "", ""⟩ : Cmd) = Except.ok
      (storeC3, ⟨"That task number doesn’t exist. Use /list to check.", none⟩) := by
  have h := C4_done_out_of_range storeC3 (⟨5, "4", 42, "bob", "", ""⟩ : Cmd) "4" [] 4
    (by decide) (by decide) (by decide) (by decide)
  exact h.trans (by rfl)

/-- Witness for C8: `goto 3` on `[A, B, C]` replies to message 30 (task `C`)
and changes nothing. -/
theorem C8_witness :
    goto_task storeC3 (⟨5, "3", 41, "cat", "", ""⟩ : Cmd) = Except.ok
      (storeC3, ⟨"📎 Original task (by @cat) 👇", some 30⟩) := by
  obtain ⟨t, ht, heq⟩ := C8_goto_readonly storeC3 (⟨5, "3", 41, "cat", "", ""⟩ : Cmd)
    "3" [] 3 (by decide) (by decide) (by decide) (by decide) (by decide)
  have hts : taskC = t :=
    Option.some.inj ((by rfl : (storeC3 5)[3-1]? = some taskC).symm.trans ht)
  subst hts
  exact heq.trans (by rfl)

/-- C1 fails on the program: superscript two passes the `isdigit()` guard,
yet `int` rejects it, so on a chat with at least one task both `done ²` and
`goto ²` raise `ValueError` and the exception propagates out of the handler
instead of a response being returned. -/
theorem C1_exception_on_superscript :
    done_task storeC3 (⟨5, "²", 50, "bob", "", ""⟩ : Cmd) = Except.error "ValueError" ∧
    goto_task storeC3 (⟨5, "²", 51, "bob", "", ""⟩ : Cmd) = Except.error "ValueError" :=
  ⟨rfl, rfl⟩

end TaskBot

namespace TaskBot

/-! ## Appending and returned positions -/

theorem setChat_self (store : Store) (chatId : Int) (l : List Task) :
    setChat store chatId l chatId = l := if_pos rfl

/-- The store effect of `tasks.append(...)` in `add`, paired with the
1-based position at which the appended task lands (the length of the list
right after the insertion). -/
def append_task (store : Store) (chatId : Int) (t : Task) : Store × Nat :=
  (setChat store chatId (get_tasks_for store chatId ++ [t]),
   (get_tasks_for store chatId).length + 1)

/-- Iterate `append_task` over a sequence of tasks, collecting the returned
positions in call order. -/
def appendAll : Store → Int → List Task → Store × List Nat
  | store, _, [] => (store, [])
  | store, chatId, t :: ts =>
    ((appendAll (append_task store chatId t).1 chatId ts).1,
     (append_task store chatId t).2 ::
       (appendAll (append_task store chatId t).1 chatId ts).2)

theorem appendAll_fst (ts : List Task) (store : Store) (chatId : Int) :
    (appendAll store chatId ts).1 chatId = store chatId ++ ts := by
  induction ts generalizing store with
  | nil => simp [appendAll]
  | cons t ts ih =>
    simp only [appendAll, append_task, get_tasks_for]
    rw [ih, setChat_self, List.append_assoc, List.singleton_append]

theorem appendAll_snd (ts : List Task) (store : Store) (chatId : Int) :
    (appendAll store chatId ts).2 =
      (List.range ts.length).map (fun i => (store chatId).length + i + 1) := by
  induction ts generalizing store with
  | nil => simp [appendAll]
  | cons t ts ih =>
    simp only [appendAll, append_task, get_tasks_for, List.length_cons]
    rw [ih, List.range_succ_eq_map, List.map_cons, List.map_map]
    refine congrArg₂ _ (by omega) ?_
    refine List.map_congr_left ?_
    intro i hi
    simp only [Function.comp, setChat_self, List.length_append, List.length_cons,
      List.length_nil, Nat.succ_eq_add_one]
    omega

/-- C5: starting from any prior per-chat state with `k` tasks, a sequence of
appends leaves the snapshot of the chat equal to the pre-existing tasks followed
by the appended ones in call order; the position returned by the `i`-th
append (0-based `i`) is `k + i + 1`, which also equals the length of the
list immediately after that insertion. -/
theorem C5_append_positions (store : Store) (chatId : Int) (ts : List Task) :
    (appendAll store chatId ts).1 chatId = store chatId ++ ts ∧
    (appendAll store chatId ts).2 =
      (List.range ts.length).map (fun i => (store chatId).length + i + 1) ∧
    ∀ i, i < ts.length →
      ((appendAll store chatId (ts.take (i+1))).1 chatId).length
        = (store chatId).length + i + 1 := by
  refine ⟨appendAll_fst ts store chatId, appendAll_snd ts store chatId, ?_⟩
  intro i hi
  rw [appendAll_fst, List.length_append, List.length_take]
  omega

/-- Witness for C5: appending `A` then `B` to the three-task chat yields the
five tasks in order and the returned positions `4` and `5`. -/
theorem C5_witness :
    (appendAll storeC3 5 [taskA, taskB]).1 5 = [taskA, taskB, taskC, taskA, taskB] ∧
    (appendAll storeC3 5 [taskA, taskB]).2 = [4, 5] := by
  obtain ⟨h1, h2, -⟩ := C5_append_positions storeC3 5 [taskA, taskB]
  exact ⟨h1.trans (by rfl), h2.trans (by rfl)⟩

end TaskBot

namespace TaskBot

/-! ## Reachable-state invariant on task texts -/

/-- Both ends of a stripped character list avoid whitespace. -/
theorem stripped_edges (l : List Char) :
    (∀ ch, (List.rdropWhile Char.isWhitespace (l.dropWhile Char.isWhitespace)).head? = some ch →
      ch.isWhitespace = false) ∧
    (∀ ch, (List.rdropWhile Char.isWhitespace (l.dropWhile Char.isWhitespace)).getLast? = some ch →
      ch.isWhitespace = false) := by
  constructor
  · intro ch hch
    have hne : List.rdropWhile Char.isWhitespace (l.dropWhile Char.isWhitespace) ≠ [] :=
      fun h => Option.noConfusion (h ▸ hch)
    have hpre : List.rdropWhile Char.isWhitespace (l.dropWhile Char.isWhitespace) <+:
        l.dropWhile Char.isWhitespace :=
      List.rdropWhile_prefix Char.isWhitespace (l.dropWhile Char.isWhitespace)
    have hhead := hpre.head hne
    have hws := List.head_dropWhile_not Char.isWhitespace l (hpre.ne_nil hne)
    rw [List.head?_eq_head hne] at hch
    rw [← Option.some.inj hch, hhead]
    exact hws
  · intro ch hch
    have hne : List.rdropWhile Char.isWhitespace (l.dropWhile Char.isWhitespace) ≠ [] :=
      fun h => Option.noConfusion (h ▸ hch)
    have hlast := List.rdropWhile_last_not Char.isWhitespace (l.dropWhile Char.isWhitespace) hne
    rw [List.getLast?_eq_getLast _ hne] at hch
    rw [← Option.some.inj hch]
    exact Bool.not_eq_true _ ▸ hlast

end TaskBot

namespace TaskBot

/-- The invariant on the text of a stored task: non-empty and free of leading
and trailing whitespace. -/
def GoodText (s : String) : Prop :=
  s ≠ "" ∧
  (∀ ch, s.data.head? = some ch → ch.isWhitespace = false) ∧
  (∀ ch, s.data.getLast? = some ch → ch.isWhitespace = false)

/-- Every stored task of every chat satisfies `GoodText`. -/
def StoreInv (store : Store) : Prop :=
  ∀ chatId, ∀ t ∈ store chatId, GoodText t.text

/-- One transport-delivered command event. -/
abbrev Event := CommandName × Cmd

/-- Apply one event to the store, discarding the response; on an error
outcome (a raised exception) the store is kept, matching the program: the
only reachable raise site is `int(...)`, evaluated before any mutation. -/
def runEvent (store : Store) (e : Event) : Store :=
  match handle e.1 store e.2 with
  | Except.ok out => out.1
  | Except.error _ => store

/-- Run a sequence of command events from a given store. -/
def runEvents (store : Store) (events : List Event) : Store :=
  events.foldl runEvent store

/-- Classification of the store a handler can return: unchanged, the
addressed chat extended by one freshly built task, the addressed chat with
one index erased, or the addressed chat emptied. -/
theorem handle_state_cases (name : CommandName) (store : Store) (c : Cmd) (out : Store × Response)
    (hout : handle name store c = Except.ok out) :
    out.1 = store ∨
    (out.1 = setChat store c.chatId
        (store c.chatId ++ [⟨task_text c.argString, c.sourceMessageId, added_by_of c⟩]) ∧
      task_text c.argString ≠ "") ∨
    (∃ i, out.1 = setChat store c.chatId ((store c.chatId).eraseIdx i)) ∨
    out.1 = setChat store c.chatId [] := by
  cases name with
  | start =>
    cases hout
    exact Or.inl rfl
  | help =>
    cases hout
    exact Or.inl rfl
  | add =>
    simp only [handle, add, get_tasks_for] at hout
    split at hout
    · cases hout
      exact Or.inl rfl
    · rename_i hne
      cases hout
      exact Or.inr (Or.inl ⟨rfl, hne⟩)
  | list =>
    simp only [handle, list_tasks] at hout
    split at hout
    · cases hout
      exact Or.inl rfl
    · cases hout
      exact Or.inl rfl
  | goto =>
    simp only [handle, goto_task] at hout
    split at hout
    · cases hout
      exact Or.inl rfl
    · split at hout
      · cases hout
        exact Or.inl rfl
      · split at hout
        · cases hout
          exact Or.inl rfl
        · split at hout
          · exact Except.noConfusion hout
          · split at hout
            · cases hout
              exact Or.inl rfl
            · split at hout
              · exact Except.noConfusion hout
              · cases hout
                exact Or.inl rfl
  | done =>
    simp only [handle, done_task, get_tasks_for] at hout
    split at hout
    · cases hout
      exact Or.inl rfl
    · split at hout
      · cases hout
        exact Or.inl rfl
      · split at hout
        · cases hout
          exact Or.inl rfl
        · split at hout
          · exact Except.noConfusion hout
          · split at hout
            · cases hout
              exact Or.inl rfl
            · split at hout
              · exact Except.noConfusion hout
              · cases hout
                exact Or.inr (Or.inr (Or.inl ⟨_, rfl⟩))
  | clear =>
    cases hout
    exact Or.inr (Or.inr (Or.inr rfl))

/-- A single command event preserves the text invariant. -/
theorem runEvent_preserves (store : Store) (e : Event) (h : StoreInv store) :
    StoreInv (runEvent store e) := by
  unfold runEvent
  cases hout : handle e.1 store e.2 with
  | error _ => exact h
  | ok out =>
    show StoreInv out.1
    rcases handle_state_cases e.1 store e.2 out hout with h1 | ⟨h1, hne⟩ | ⟨i, h1⟩ | h1
    · rw [h1]
      exact h
    · rw [h1]
      intro chat u hu
      unfold setChat at hu
      by_cases hch : chat = e.2.chatId
      · rw [if_pos hch] at hu
        rcases List.mem_append.mp hu with hu | hu
        · exact h e.2.chatId u hu
        · rw [List.mem_singleton.mp hu]
          exact ⟨hne, (stripped_edges _).1, (stripped_edges _).2⟩
      · rw [if_neg hch] at hu
        exact h chat u hu
    · rw [h1]
      intro chat u hu
      unfold setChat at hu
      by_cases hch : chat = e.2.chatId
      · rw [if_pos hch] at hu
        exact h e.2.chatId u (List.mem_of_mem_eraseIdx hu)
      · rw [if_neg hch] at hu
        exact h chat u hu
    · rw [h1]
      intro chat u hu
      unfold setChat at hu
      by_cases hch : chat = e.2.chatId
      · rw [if_pos hch] at hu
        exact absurd hu (List.not_mem_nil u)
      · rw [if_neg hch] at hu
        exact h chat u hu

end TaskBot

namespace TaskBot

theorem runEvents_inv (events : List Event) (store : Store) (h : StoreInv store) :
    StoreInv (runEvents store events) := by
  induction events generalizing store with
  | nil => exact h
  | cons e es ih => exact ih (runEvent store e) (runEvent_preserves store e h)

/-- C10: in every store reachable from the initial empty store by any
sequence of start/help/add/list/goto/done/clear command events, the text of
every stored task is non-empty and carries no leading or trailing
whitespace: `add` is the only operation inserting tasks, it stores the
stripped joined argument and rejects an empty result, and no operation
rewrites the text of an existing task. -/
theorem C10_text_invariant (events : List Event) (chatId : Int) (t : Task)
    (ht : t ∈ runEvents storeEmpty events chatId) :
    GoodText t.text :=
  runEvents_inv events storeEmpty
    (fun _ u hu => absurd hu (List.not_mem_nil u)) chatId t ht

/-- Witness for C10: after the event `add " Buy milk "` in chat 9, the
stored task text `"Buy milk"` satisfies the invariant. -/
theorem C10_witness :
    GoodText (Task.mk "Buy milk" 3 "@ann").text := by
  refine C10_text_invariant
    [(CommandName.add, ⟨9, " Buy milk ", 3, "ann", "", ""⟩)] 9 (Task.mk "Buy milk" 3 "@ann") ?_
  rw [show runEvents storeEmpty
      [(CommandName.add, ⟨9, " Buy milk ", 3, "ann", "", ""⟩)] 9 =
      [Task.mk "Buy milk" 3 "@ann"] from rfl]
  exact List.mem_singleton.mpr rfl

end TaskBot
